import Mathlib

/- Shallow embedding of
   src/packages/commercetools/composables/src/getters/checkoutShippingMethodGetters.ts.

   JavaScript numbers are modelled as rationals; a JavaScript value that may be
   null or undefined is modelled by JSVal; a computation that may throw a
   TypeError (from a property access on null or undefined) is modelled by
   JSResult. An object field that may be absent is an Option; reading an absent
   field yields undefined (optToJS). -/

inductive JSVal (α : Type) where
  | val : α → JSVal α
  | nullV : JSVal α
  | undef : JSVal α
deriving DecidableEq

inductive JSResult (α : Type) where
  | ok : α → JSResult α
  | typeError : JSResult α
deriving DecidableEq

/-- Reading a field that may be absent: an absent field reads as undefined. -/
def optToJS {α : Type} : Option α → JSVal α
  | some a => JSVal.val a
  | none => JSVal.undef

/-- Embeds the commercetools money record: price.centAmount. -/
structure Money where
  centAmount : ℚ
deriving DecidableEq

/-- Embeds a shipping rate: shippingRates[i].price. -/
structure ShippingRate where
  price : Money
deriving DecidableEq

/-- Embeds a zone rate: zoneRates[i].shippingRates. -/
structure ZoneRate where
  shippingRates : List ShippingRate
deriving DecidableEq

/-- Embeds the ShippingMethod GraphQL shape as far as the getters read it.
Fields are Option so that malformed responses with absent fields are
representable; zoneRates is Option so that `!method.zoneRates` has a falsy
case. -/
structure ShippingMethod where
  id : Option String
  name : Option String
  description : Option String
  zoneRates : Option (List ZoneRate)
deriving DecidableEq

/-- Source line 4: `(methods) => methods`. -/
def getShippingMethods (methods : List ShippingMethod) : List ShippingMethod :=
  methods

/-- Source line 5: `(method) => method?.id`. Optional chaining yields undefined
on a null or undefined receiver instead of throwing. -/
def getMethodId : JSVal ShippingMethod → JSResult (JSVal String)
  | JSVal.nullV => JSResult.ok JSVal.undef
  | JSVal.undef => JSResult.ok JSVal.undef
  | JSVal.val m => JSResult.ok (optToJS m.id)

/-- Source line 6: `(method) => method.name`. A plain property access on null
or undefined throws a TypeError. -/
def getMethodName : JSVal ShippingMethod → JSResult (JSVal String)
  | JSVal.nullV => JSResult.typeError
  | JSVal.undef => JSResult.typeError
  | JSVal.val m => JSResult.ok (optToJS m.name)

/-- Source line 7: `(method) => method.description`. -/
def getMethodDescription : JSVal ShippingMethod → JSResult (JSVal String)
  | JSVal.nullV => JSResult.typeError
  | JSVal.undef => JSResult.typeError
  | JSVal.val m => JSResult.ok (optToJS m.description)

/-- Source lines 8-14: the guard `if (!method || !method.zoneRates) return null`
followed by `method.zoneRates[0].shippingRates[0].price.centAmount / 100`.
An empty array is truthy in JavaScript, so `zoneRates = []` passes the guard
and `zoneRates[0]` is undefined, making `.shippingRates` throw; likewise an
empty `shippingRates` makes `.price` throw. -/
def getMethodPrice : JSVal ShippingMethod → JSResult (JSVal ℚ)
  | JSVal.nullV => JSResult.ok JSVal.nullV
  | JSVal.undef => JSResult.ok JSVal.nullV
  | JSVal.val m =>
    match m.zoneRates with
    | none => JSResult.ok JSVal.nullV
    | some [] => JSResult.typeError
    | some (zr :: _) =>
      match zr.shippingRates with
      | [] => JSResult.typeError
      | sr :: _ => JSResult.ok (JSVal.val (sr.price.centAmount / 100))

/-- Source lines 15-16: `(method) => false`, the argument being unused. -/
def isMethodDefault (_method : JSVal ShippingMethod) : Bool :=
  false

/- State-passing variants: each getter re-expressed as a function returning both
its result and the state of its argument object after the call, branch by
branch as in the source. Every branch of the source only reads fields, so each
branch returns the received object unchanged. -/

/-- State-passing form of getShippingMethods (source line 4). -/
def getShippingMethodsSt (methods : List ShippingMethod) :
    List ShippingMethod × List ShippingMethod :=
  (methods, methods)

/-- State-passing form of getMethodId (source line 5). -/
def getMethodIdSt : JSVal ShippingMethod → JSResult (JSVal String) × JSVal ShippingMethod
  | JSVal.nullV => (JSResult.ok JSVal.undef, JSVal.nullV)
  | JSVal.undef => (JSResult.ok JSVal.undef, JSVal.undef)
  | JSVal.val m => (JSResult.ok (optToJS m.id), JSVal.val m)

/-- State-passing form of getMethodName (source line 6). -/
def getMethodNameSt : JSVal ShippingMethod → JSResult (JSVal String) × JSVal ShippingMethod
  | JSVal.nullV => (JSResult.typeError, JSVal.nullV)
  | JSVal.undef => (JSResult.typeError, JSVal.undef)
  | JSVal.val m => (JSResult.ok (optToJS m.name), JSVal.val m)

/-- State-passing form of getMethodDescription (source line 7). -/
def getMethodDescriptionSt : JSVal ShippingMethod → JSResult (JSVal String) × JSVal ShippingMethod
  | JSVal.nullV => (JSResult.typeError, JSVal.nullV)
  | JSVal.undef => (JSResult.typeError, JSVal.undef)
  | JSVal.val m => (JSResult.ok (optToJS m.description), JSVal.val m)

/-- State-passing form of getMethodPrice (source lines 8-14). -/
def getMethodPriceSt : JSVal ShippingMethod → JSResult (JSVal ℚ) × JSVal ShippingMethod
  | JSVal.nullV => (JSResult.ok JSVal.nullV, JSVal.nullV)
  | JSVal.undef => (JSResult.ok JSVal.nullV, JSVal.undef)
  | JSVal.val m =>
    match m.zoneRates with
    | none => (JSResult.ok JSVal.nullV, JSVal.val m)
    | some [] => (JSResult.typeError, JSVal.val m)
    | some (zr :: _) =>
      match zr.shippingRates with
      | [] => (JSResult.typeError, JSVal.val m)
      | sr :: _ => (JSResult.ok (JSVal.val (sr.price.centAmount / 100)), JSVal.val m)

/-- State-passing form of isMethodDefault (source lines 15-16). -/
def isMethodDefaultSt (method : JSVal ShippingMethod) : Bool × JSVal ShippingMethod :=
  (false, method)

/-- Concrete shipping rate with centAmount 1000, for witnesses. -/
def srFixture : ShippingRate :=
  ⟨⟨1000⟩⟩

/-- Concrete well-formed shipping method holding srFixture, for witnesses. -/
def mFixture : ShippingMethod :=
  ⟨none, none, none, some [⟨[srFixture]⟩]⟩

/-- C1: counterexample — getMethodPrice applied to a null method returns the
substituted value null: it neither throws a TypeError nor propagates
undefined, contradicting the claim that no getter substitutes a fallback. -/
theorem C1_counterexample_price_null_substitutes :
    getMethodPrice JSVal.nullV = JSResult.ok JSVal.nullV ∧
    getMethodPrice JSVal.nullV ≠ JSResult.typeError ∧
    getMethodPrice JSVal.nullV ≠ JSResult.ok JSVal.undef := by
  refine ⟨rfl, ?_, ?_⟩ <;> decide

/-- C1 (amended): getters other than getMethodPrice perform no error handling —
getMethodId propagates undefined on a null or undefined method via optional
chaining, getMethodName and getMethodDescription throw a TypeError there —
while getMethodPrice substitutes the fallback value null both for a null or
undefined method and for any method whose zoneRates field is absent. -/
theorem C1_amended_error_handling :
    getMethodId JSVal.nullV = JSResult.ok JSVal.undef ∧
    getMethodId JSVal.undef = JSResult.ok JSVal.undef ∧
    getMethodName JSVal.nullV = JSResult.typeError ∧
    getMethodName JSVal.undef = JSResult.typeError ∧
    getMethodDescription JSVal.nullV = JSResult.typeError ∧
    getMethodDescription JSVal.undef = JSResult.typeError ∧
    getMethodPrice JSVal.nullV = JSResult.ok JSVal.nullV ∧
    getMethodPrice JSVal.undef = JSResult.ok JSVal.nullV ∧
    (∀ i n d : Option String,
      getMethodPrice (JSVal.val ⟨i, n, d, none⟩) = JSResult.ok JSVal.nullV) :=
  ⟨rfl, rfl, rfl, rfl, rfl, rfl, rfl, rfl, fun _ _ _ => rfl⟩

/-- C2: on a well-formed method — zoneRates non-empty, its first zone rate with
a non-empty shippingRates list whose first rate has price.centAmount c —
getMethodPrice returns exactly c / 100. -/
theorem C2_price_well_formed (m : ShippingMethod) (zr : ZoneRate)
    (zrs : List ZoneRate) (sr : ShippingRate) (srs : List ShippingRate) (c : ℚ)
    (hz : m.zoneRates = some (zr :: zrs)) (hs : zr.shippingRates = sr :: srs)
    (hc : sr.price.centAmount = c) :
    getMethodPrice (JSVal.val m) = JSResult.ok (JSVal.val (c / 100)) := by
  obtain ⟨i, n, d, z⟩ := m
  obtain ⟨rates⟩ := zr
  simp only at hz hs
  subst hz
  subst hs
  subst hc
  rfl

/-- C2 witness: a concrete fixture with centAmount 1000 yields 1000 / 100,
which is 10. -/
theorem C2_price_well_formed_witness :
    getMethodPrice (JSVal.val mFixture) = JSResult.ok (JSVal.val (1000 / 100)) ∧
    (1000 : ℚ) / 100 = 10 :=
  ⟨C2_price_well_formed mFixture ⟨[srFixture]⟩ [] srFixture [] 1000 rfl rfl rfl,
   by norm_num⟩

/-- C3: every getter in the set is deterministic — two calls on equal inputs
return equal results; in this embedding each getter is a function of its
argument alone, so it touches no state outside it. -/
theorem C3_getters_deterministic (ms ms2 : List ShippingMethod)
    (v w : JSVal ShippingMethod) (hm : ms = ms2) (hv : v = w) :
    getShippingMethods ms = getShippingMethods ms2 ∧
    getMethodId v = getMethodId w ∧
    getMethodName v = getMethodName w ∧
    getMethodDescription v = getMethodDescription w ∧
    getMethodPrice v = getMethodPrice w ∧
    isMethodDefault v = isMethodDefault w := by
  subst hm
  subst hv
  exact ⟨rfl, rfl, rfl, rfl, rfl, rfl⟩

/-- C3 witness: determinism instantiated at concrete inputs. -/
theorem C3_getters_deterministic_witness :
    getShippingMethods [mFixture] = getShippingMethods [mFixture] ∧
    getMethodId (JSVal.val mFixture) = getMethodId (JSVal.val mFixture) ∧
    getMethodName (JSVal.val mFixture) = getMethodName (JSVal.val mFixture) ∧
    getMethodDescription (JSVal.val mFixture) = getMethodDescription (JSVal.val mFixture) ∧
    getMethodPrice (JSVal.val mFixture) = getMethodPrice (JSVal.val mFixture) ∧
    isMethodDefault (JSVal.val mFixture) = isMethodDefault (JSVal.val mFixture) :=
  C3_getters_deterministic [mFixture] [mFixture] (JSVal.val mFixture) (JSVal.val mFixture) rfl rfl

/-- C4: in the state-passing embedding of the getters, every branch returns the
argument object unchanged — getters only read from their input, never
construct or mutate it. -/
theorem C4_getters_preserve_input (ms : List ShippingMethod)
    (v : JSVal ShippingMethod) :
    (getShippingMethodsSt ms).2 = ms ∧
    (getMethodIdSt v).2 = v ∧
    (getMethodNameSt v).2 = v ∧
    (getMethodDescriptionSt v).2 = v ∧
    (getMethodPriceSt v).2 = v ∧
    (isMethodDefaultSt v).2 = v := by
  refine ⟨rfl, ?_, ?_, ?_, ?_, rfl⟩
  · cases v <;> rfl
  · cases v <;> rfl
  · cases v <;> rfl
  · cases v with
    | nullV => rfl
    | undef => rfl
    | val m =>
      obtain ⟨i, n, d, z⟩ := m
      cases z with
      | none => rfl
      | some zrs =>
        cases zrs with
        | nil => rfl
        | cons zr rest =>
          obtain ⟨rates⟩ := zr
          cases rates <;> rfl

/-- C5: counterexample — on a null method, getMethodPrice returns (it does not
throw), yet the returned value is null, which is not a number, contradicting
the claim that it returns a number on every input on which it returns. -/
theorem C5_counterexample_price_returns_null :
    getMethodPrice JSVal.nullV = JSResult.ok JSVal.nullV ∧
    ∀ q : ℚ, (JSVal.nullV : JSVal ℚ) ≠ JSVal.val q :=
  ⟨rfl, fun _ h => JSVal.noConfusion h⟩

/-- C5 (amended): every value getMethodPrice returns is either null — on a null
or undefined method, or one without zoneRates — or a number; it never returns
undefined or any other shape. -/
theorem C5_amended_price_number_or_null (v : JSVal ShippingMethod) (x : JSVal ℚ)
    (h : getMethodPrice v = JSResult.ok x) :
    x = JSVal.nullV ∨ ∃ q : ℚ, x = JSVal.val q := by
  cases v with
  | nullV =>
    injection h with h
    exact Or.inl h.symm
  | undef =>
    injection h with h
    exact Or.inl h.symm
  | val m =>
    obtain ⟨i, n, d, z⟩ := m
    cases z with
    | none =>
      injection h with h
      exact Or.inl h.symm
    | some zrs =>
      cases zrs with
      | nil => exact JSResult.noConfusion h
      | cons zr rest =>
        obtain ⟨rates⟩ := zr
        cases rates with
        | nil => exact JSResult.noConfusion h
        | cons sr rest2 =>
          injection h with h
          exact Or.inr ⟨sr.price.centAmount / 100, h.symm⟩

/-- C5 witness: the amended claim instantiated at the null method, whose result
is the null value. -/
theorem C5_amended_price_number_or_null_witness :
    (JSVal.nullV : JSVal ℚ) = JSVal.nullV ∨ ∃ q : ℚ, (JSVal.nullV : JSVal ℚ) = JSVal.val q :=
  C5_amended_price_number_or_null JSVal.nullV JSVal.nullV rfl

/-- C6: getMethodId returns the id field of a non-null method and undefined on
a null or undefined method; getMethodName and getMethodDescription return the
name and description fields of every non-null method. -/
theorem C6_field_getters :
    (∀ m : ShippingMethod, getMethodId (JSVal.val m) = JSResult.ok (optToJS m.id)) ∧
    getMethodId JSVal.nullV = JSResult.ok JSVal.undef ∧
    getMethodId JSVal.undef = JSResult.ok JSVal.undef ∧
    (∀ m : ShippingMethod, getMethodName (JSVal.val m) = JSResult.ok (optToJS m.name)) ∧
    (∀ m : ShippingMethod,
      getMethodDescription (JSVal.val m) = JSResult.ok (optToJS m.description)) :=
  ⟨fun _ => rfl, rfl, rfl, fun _ => rfl, fun _ => rfl⟩

/-- C7: the null guard of getMethodPrice is not total — a method whose
zoneRates is present but empty passes the guard and the indexing then throws
a TypeError, and likewise when the first zone rate has an empty shippingRates
list. -/
theorem C7_guard_not_total :
    (∀ i n d : Option String,
      getMethodPrice (JSVal.val ⟨i, n, d, some []⟩) = JSResult.typeError) ∧
    (∀ (i n d : Option String) (zrs : List ZoneRate),
      getMethodPrice (JSVal.val ⟨i, n, d, some (⟨[]⟩ :: zrs)⟩) = JSResult.typeError) :=
  ⟨fun _ _ _ => rfl, fun _ _ _ _ => rfl⟩

/-- C8: isMethodDefault returns false on every input, ignoring its argument. -/
theorem C8_isMethodDefault_always_false (v : JSVal ShippingMethod) :
    isMethodDefault v = false :=
  rfl

/-- C9: getShippingMethods is the identity on shipping-method lists. -/
theorem C9_getShippingMethods_identity (ms : List ShippingMethod) :
    getShippingMethods ms = ms :=
  rfl
